import Mathlib

/-!
Shallow embedding of the rs_salobj middleware (LSST SAL object layer in
Rust) together with theorems settling the specification claims about its
lifecycle state machine, state-transition planner, read-topic queue,
remote-command acknowledgement loop, command catalog indexing and broker
configuration.

Every definition is translated from the Rust sources
(`src/sal_enums.rs`, `src/csc/summary_state.rs`, `src/utils/csc.rs`,
`src/topics/read_topic.rs`, `src/topics/remote_command.rs`,
`src/utils/command_ack.rs`, `src/component_info.rs`, `src/sal_info.rs`,
`src/domain.rs` and the `salobj/` copies where cited).
-/

deriving instance DecidableEq for Except

namespace RsSalobj

/-- SAL return codes (`sal_enums.rs`, enum `SalRetCode`). -/
inductive SalRetCode where
  | Ok
  | Error
  | IllegalRevcode
  | TooManyHandles
  | NotDefined
  | Timeout
  | SignalInterrupt
  | WaitForNextUpdate
  | WaitForChange
  | NoUpdates
  | WaitingForNext
  | GotUpdate
  | SyncIn
  | SyncOut
  | SyncSet
  | SyncClear
  | SyncRead
  | EventInfo
  | EventWarn
  | EventError
  | EventAbort
  | CmdAck
  | CmdInprogress
  | CmdStalled
  | CmdComplete
  | CmdNoperm
  | CmdNoack
  | CmdFailed
  | CmdAborted
  | CmdTimeout
  | DataAvail
  | DeadlineMiss
  | IncompatQos
  | SampleRej
  | LivelinessChg
  | SampleLost
  | SubscrMatch
deriving DecidableEq, Repr

/-- Is the ack final? (`sal_enums.rs`, `is_ack_final`). -/
def is_ack_final (ack : SalRetCode) : Bool :=
  [SalRetCode.CmdAborted,
   SalRetCode.CmdComplete,
   SalRetCode.CmdFailed,
   SalRetCode.CmdNoack,
   SalRetCode.CmdNoperm,
   SalRetCode.CmdStalled,
   SalRetCode.CmdTimeout].contains ack

/-- Is the ack good? (`sal_enums.rs`, `is_ack_good`). -/
def is_ack_good (ack : SalRetCode) : Bool :=
  [SalRetCode.CmdAck,
   SalRetCode.CmdInprogress,
   SalRetCode.CmdComplete].contains ack

/-- Standard state enumeration (`sal_enums.rs`, enum `State`). -/
inductive State where
  | Invalid
  | Disabled
  | Enabled
  | Fault
  | Offline
  | Standby
deriving DecidableEq, Repr, Fintype

/-- Rendering of a `State` as produced by the Rust `Display`/`Debug`
implementations (used inside error messages). -/
def State.display : State → String
  | .Invalid => "Invalid"
  | .Disabled => "Disabled"
  | .Enabled => "Enabled"
  | .Fault => "Fault"
  | .Offline => "Offline"
  | .Standby => "Standby"

/-- `State::from` on a primitive integer (`sal_enums.rs`). -/
def State.from (value : Nat) : State :=
  match value with
  | 1 => State.Disabled
  | 2 => State.Enabled
  | 3 => State.Fault
  | 4 => State.Offline
  | 5 => State.Standby
  | _ => State.Invalid

/-! State machine methods from `src/csc/summary_state.rs`.  The Rust
`SalObjResult<State>` is embedded as `Except String State`. -/

/-- `State::start` (`summary_state.rs`). -/
def State.start (self : State) : Except String State :=
  if self = State.Standby then
    .ok State.Disabled
  else
    .error ("Cannot perform state transition " ++ self.display ++ " -> Disable")

/-- `State::enable` (`summary_state.rs`). -/
def State.enable (self : State) : Except String State :=
  if self = State.Disabled then
    .ok State.Enabled
  else
    .error ("Cannot perform state transition " ++ self.display ++ " -> Enabled")

/-- `State::disable` (`summary_state.rs`). -/
def State.disable (self : State) : Except String State :=
  if self = State.Enabled then
    .ok State.Disabled
  else
    .error ("Cannot perform state transition " ++ self.display ++ " -> Disabled")

/-- `State::standby` (`summary_state.rs`). -/
def State.standby (self : State) : Except String State :=
  if self = State.Disabled ∨ self = State.Fault then
    .ok State.Standby
  else
    .error ("Cannot perform state transition " ++ self.display ++ " -> Standby")

/-- `State::enter_control` (`summary_state.rs`). -/
def State.enter_control (self : State) : Except String State :=
  if self = State.Standby then
    .ok State.Offline
  else
    .error ("Cannot perform state transition " ++ self.display ++ " -> Offline")

/-- `State::exit_control` (`summary_state.rs`). -/
def State.exit_control (self : State) : Except String State :=
  if self = State.Offline then
    .ok State.Standby
  else
    .error ("Cannot perform state transition " ++ self.display ++ " -> Standby")

/-! `src/utils/csc.rs`: `compute_state_transitions` and its transition
table. -/

/-- The `ordered_states` array of `compute_state_transitions`
(`utils/csc.rs`). -/
def ordered_states : List State :=
  [State.Offline, State.Standby, State.Disabled, State.Enabled]

/-- The `basic_state_transition_commands` map of `compute_state_transitions`
(`utils/csc.rs`), as an association list from state pairs to command
names. -/
def basic_state_transition_commands : List ((State × State) × String) :=
  [((State.Offline, State.Standby), "command_enterControl"),
   ((State.Standby, State.Disabled), "command_start"),
   ((State.Disabled, State.Enabled), "command_enable"),
   ((State.Enabled, State.Disabled), "command_disable"),
   ((State.Disabled, State.Standby), "command_standby"),
   ((State.Standby, State.Offline), "command_exitControl")]

/-- Lookup in `basic_state_transition_commands` (the Rust `HashMap::get`;
the keys of the literal map are distinct, so first-match lookup agrees
with the hash map). -/
def basic_transition_lookup (key : State × State) : Option String :=
  (basic_state_transition_commands.find? (fun p => p.1 == key)).map (fun p => p.2)

/-- `compute_state_transitions` (`utils/csc.rs`).  Rust panics (the two
`assert!`s, out-of-range indexing and the `unwrap` of the map lookup) are
embedded as `Except.error`; the Rust `Option<Vec<String>>` return value is
the `Option (List String)` inside `Except.ok`. -/
def compute_state_transitions (initial_state desired_state : State) :
    Except String (Option (List String)) :=
  if desired_state = State.Fault ∨ desired_state = State.Invalid then
    .error "Invalid desired state"
  else if initial_state = State.Invalid then
    .error "Invalid initial state"
  else if initial_state = desired_state then
    .ok none
  else
    let state_transitions : List String :=
      if initial_state = State.Fault then ["command_standby"] else []
    let current_state :=
      if initial_state = State.Fault then State.Standby else initial_state
    match ordered_states.findIdx? (fun state => state == current_state),
        ordered_states.findIdx? (fun state => state == desired_state) with
    | some current_state_position, some desired_state_position =>
      let index_range : List Nat :=
        if desired_state_position > current_state_position then
          List.range' current_state_position
            (desired_state_position - current_state_position)
        else
          (List.range' (desired_state_position + 1)
            (current_state_position - desired_state_position)).reverse
      let offset : Int :=
        if desired_state_position > current_state_position then 1 else -1
      let additional_transitions : Option (List String) :=
        index_range.mapM (fun index =>
          match ordered_states.get? index,
              ordered_states.get? ((index : Int) + offset).toNat with
          | some s, some t => basic_transition_lookup (s, t)
          | _, _ => none)
      match additional_transitions with
      | some cmds => .ok (some (state_transitions ++ cmds))
      | none => .error "panic"
    | _, _ => .ok none

/-- The lifecycle transition performed by a state-transition command: the
inverse view of `basic_state_transition_commands`, together with the
`Fault → Standby` transition that `State::standby` (`summary_state.rs`)
allows and that `compute_state_transitions` emits for a `Fault` initial
state.  `command_transition cmd s` is the state reached by issuing `cmd`
in state `s`, or `none` when `cmd` is not allowed in `s`. -/
def command_transition (cmd : String) (s : State) : Option State :=
  if cmd = "command_standby" ∧ s = State.Fault then
    some State.Standby
  else
    (basic_state_transition_commands.find?
      (fun p => p.2 == cmd && p.1.1 == s)).map (fun p => p.1.2)

/-- Apply a sequence of state-transition commands from a starting state,
failing if any command is not allowed where it is issued. -/
def apply_commands (s : State) (cmds : List String) : Option State :=
  cmds.foldlM (fun state cmd => command_transition cmd state) s

/-- Executable check used by the claim about `compute_state_transitions`:
for `a ≠ b` the function must return `Ok (Some cmds)` with `cmds` driving
`a` to `b` under `command_transition`. -/
def compute_reaches (a b : State) : Bool :=
  match compute_state_transitions a b with
  | .ok (some cmds) => apply_commands a cmds == some b
  | _ => false

/-- A successful `compute_reaches` check yields the command sequence
promised by the claim. -/
theorem compute_reaches_spec (a b : State) (h : compute_reaches a b = true) :
    ∃ cmds, compute_state_transitions a b = .ok (some cmds) ∧
      apply_commands a cmds = some b := by
  unfold compute_reaches at h
  revert h
  cases hc : compute_state_transitions a b with
  | error e => simp
  | ok o =>
    cases o with
    | none => simp
    | some cmds =>
      intro h
      exact ⟨cmds, rfl, by simpa using h⟩

/-- C1: the claim states that `State::enter_control` succeeds exactly on
`Offline`, yielding `Standby`, and `State::exit_control` succeeds exactly
on `Standby`, yielding `Offline`.  The code has the two methods swapped:
`enter_control` errors on `Offline` and maps `Standby` to `Offline`, and
`exit_control` errors on `Standby` and maps `Offline` to `Standby` —
contradicting the code's own `basic_state_transition_commands` table in
`utils/csc.rs`, which assigns `command_enterControl` to the
`Offline → Standby` edge and `command_exitControl` to the
`Standby → Offline` edge. -/
theorem c1_enter_exit_control_swapped :
    State.enter_control State.Offline =
      .error "Cannot perform state transition Offline -> Offline"
    ∧ State.exit_control State.Standby =
      .error "Cannot perform state transition Standby -> Standby"
    ∧ State.enter_control State.Standby = .ok State.Offline
    ∧ State.exit_control State.Offline = .ok State.Standby
    ∧ basic_transition_lookup (State.Offline, State.Standby) =
        some "command_enterControl"
    ∧ basic_transition_lookup (State.Standby, State.Offline) =
        some "command_exitControl" := by
  decide

/-- C2 counterexample: for equal initial and desired states the claim says
`compute_state_transitions` returns the empty command sequence, but the
code returns `None` (embedded as `Ok none`), which is not the empty
sequence `Some []`. -/
theorem c2_empty_vs_none_counterexample :
    compute_state_transitions State.Standby State.Standby = .ok none
    ∧ (Except.ok none : Except String (Option (List String))) ≠
        .ok (some ([] : List String)) := by
  decide

/-- C2 (amended): for every pair of states `(a, b)` with `a ≠ Invalid` and
`b ∉ {Invalid, Fault}`, `compute_state_transitions a b` returns `None`
(no command sequence) when `a = b`, and otherwise returns a command
sequence that, applied sequentially from `a` under the allowed-transition
relation `command_transition`, ends in state `b`. -/
theorem c2_compute_state_transitions_reach (a b : State)
    (ha : a ≠ State.Invalid) (hb : b ≠ State.Invalid) (hbf : b ≠ State.Fault) :
    (a = b → compute_state_transitions a b = .ok none)
    ∧ (a ≠ b → ∃ cmds, compute_state_transitions a b = .ok (some cmds) ∧
        apply_commands a cmds = some b) := by
  constructor
  · intro hab
    subst hab
    revert ha hbf
    cases a <;> decide
  · intro hab
    apply compute_reaches_spec
    revert ha hb hbf hab
    cases a <;> cases b <;> decide

/-- Witness for C2: instantiating the amended theorem at
`(Fault, Enabled)`. -/
theorem c2_compute_state_transitions_reach_witness :
    State.Fault ≠ State.Invalid
    ∧ State.Enabled ≠ State.Invalid
    ∧ State.Enabled ≠ State.Fault
    ∧ ((State.Fault = State.Enabled →
          compute_state_transitions State.Fault State.Enabled = .ok none)
        ∧ (State.Fault ≠ State.Enabled →
          ∃ cmds, compute_state_transitions State.Fault State.Enabled =
              .ok (some cmds) ∧
            apply_commands State.Fault cmds = some State.Enabled)) :=
  ⟨by decide, by decide, by decide,
    c2_compute_state_transitions_reach State.Fault State.Enabled
      (by decide) (by decide) (by decide)⟩

/-! Avro values (`apache_avro::types::Value`), restricted to the variants
the claims exercise.  A record is a vector of (field name, value) pairs. -/

mutual
/-- Model of `apache_avro::types::Value`. -/
inductive Value where
  | null
  | boolean (b : Bool)
  | int (i : Int)
  | long (i : Int)
  | string (s : String)
  | record (fields : ValueFields)
/-- The field vector of a record value. -/
inductive ValueFields where
  | nil
  | cons (name : String) (value : Value) (rest : ValueFields)
end

/-- The field vector as a list of pairs. -/
def ValueFields.toList : ValueFields → List (String × Value)
  | .nil => []
  | .cons n v r => (n, v) :: r.toList

/-! `src/component_info.rs` and `sal_info.rs` (catalog data needed by the
claims). -/

/-- `ComponentInfo` (`component_info.rs`), restricted to the fields the
claims exercise.  `commands` holds the keys of the `commands`
`HashMap<String, TopicInfo>` in the map's (fixed but arbitrary) iteration
order. -/
structure ComponentInfo where
  name : String
  topic_subname : String
  indexed : Bool
  commands : List String

/-- `ComponentInfo::is_indexed` (`component_info.rs`). -/
def ComponentInfo.is_indexed (self : ComponentInfo) : Bool :=
  self.indexed

/-- `ComponentInfo::get_topic_name_commands` (`component_info.rs`): the
keys of the `commands` map in iteration order. -/
def ComponentInfo.get_topic_name_commands (self : ComponentInfo) : List String :=
  self.commands

/-- `SalInfo` (`sal_info.rs`), restricted to the fields the claims
exercise. -/
structure SalInfo where
  index : Int
  component_info : ComponentInfo

/-- `SalInfo::is_indexed` (`sal_info.rs`). -/
def SalInfo.is_indexed (self : SalInfo) : Bool :=
  self.component_info.is_indexed

/-- `SalInfo::get_optional_index` (`salobj/src/sal_info.rs`). -/
def SalInfo.get_optional_index (self : SalInfo) : Option Int :=
  if self.is_indexed then some self.index else none

/-- `SalInfo::get_command_type` (`salobj/src/sal_info.rs`): position of the
command name in `get_topic_name_commands`. -/
def SalInfo.get_command_type (self : SalInfo) (command_name : String) :
    Option Nat :=
  self.component_info.get_topic_name_commands.findIdx?
    (fun name => name == command_name)

/-! `src/topics/read_topic.rs`: the in-memory state of a `ReadTopic` (the
`current_data` slot and the `data_queue`), message ingestion as performed
by `pool`, and the queue operations `flush`, `pop_front`, `pop_back` and
`get`. -/

/-- Default value for the `queue_len` constructor argument
(`read_topic.rs`, `DEFAULT_QUEUE_LEN`), used as the argument of
`VecDeque::with_capacity`. -/
def DEFAULT_QUEUE_LEN : Nat := 100

/-- `ReadTopic::same_index` (`read_topic.rs`). -/
def same_index (sal_index : Option Int) (data_value : Value) : Bool :=
  match sal_index with
  | some sal_index =>
    match data_value with
    | .record data_record =>
      let data_sal_index : List Value :=
        data_record.toList.filterMap (fun p =>
          if p.1 = "salIndex" then some p.2 else none)
      match data_sal_index.head? with
      | some (.int data_sal_index) => sal_index == data_sal_index
      | _ => false
    | _ => false
  | none => false

/-- The in-memory state of a `ReadTopic` (`read_topic.rs`): the
most-recent-data slot, the data queue and the component index filter. -/
structure ReadTopicState where
  current_data : Option Value
  data_queue : List Value
  sal_index : Option Int

/-- A freshly constructed `ReadTopic` (`ReadTopic::new`): empty queue, no
current data, `sal_index` from `SalInfo::get_optional_index`. -/
def ReadTopicState.new (sal_index : Option Int) : ReadTopicState :=
  { current_data := none, data_queue := [], sal_index := sal_index }

/-- Ingestion of one decoded message, as performed by the receive loop of
`ReadTopic::pool` (`read_topic.rs`): a message failing the `same_index`
filter is discarded; an accepted message becomes `current_data` and is
pushed to the back of `data_queue` (a plain `VecDeque::push_back` — the
code imposes no length bound). -/
def ReadTopicState.pool_ingest (rt : ReadTopicState) (data_value : Value) :
    ReadTopicState :=
  if !(same_index rt.sal_index data_value) then
    rt
  else
    { rt with
      current_data := some data_value,
      data_queue := rt.data_queue ++ [data_value] }

/-- One observable operation on a `ReadTopic`: ingestion of a received
message (inside `pool`), `flush`, `pop_front`, `pop_back` (queue ends) or
`get` (the most-recent slot). -/
inductive ReadOp where
  | ingest (m : Value)
  | flush
  | popFront
  | popBack
  | get

/-- Apply one operation, returning the new state and the message the
operation surfaces, if any.  `pop_front` pops the oldest queued message,
`pop_back` the newest (`VecDeque::pop_front` / `pop_back`), `get` reads
`current_data` without modifying anything (`read_topic.rs`). -/
def applyReadOp (rt : ReadTopicState) : ReadOp → ReadTopicState × Option Value
  | .ingest m => (rt.pool_ingest m, none)
  | .flush => ({ rt with data_queue := [] }, none)
  | .popFront => ({ rt with data_queue := rt.data_queue.tail }, rt.data_queue.head?)
  | .popBack => ({ rt with data_queue := rt.data_queue.dropLast }, rt.data_queue.getLast?)
  | .get => (rt, rt.current_data)

/-- Run a sequence of operations, collecting the surfaced messages. -/
def runReadOps (rt : ReadTopicState) :
    List ReadOp → ReadTopicState × List (Option Value)
  | [] => (rt, [])
  | op :: ops =>
    let step := applyReadOp rt op
    let rest := runReadOps step.1 ops
    (rest.1, step.2 :: rest.2)

end RsSalobj

deriving instance DecidableEq for RsSalobj.Value, RsSalobj.ValueFields
deriving instance Repr for RsSalobj.Value, RsSalobj.ValueFields
deriving instance DecidableEq for RsSalobj.ReadTopicState
deriving instance Repr for RsSalobj.ReadTopicState

namespace RsSalobj

/-- The index filter never accepts anything when `sal_index` is `None`
(`ReadTopic::same_index`, `read_topic.rs`). -/
theorem same_index_none (v : Value) : same_index none v = false := rfl

/-- The index-filter invariant of a `ReadTopic`: everything in the queue
and in the most-recent slot passed `same_index`. -/
def RTInv (rt : ReadTopicState) : Prop :=
  (∀ v ∈ rt.data_queue, same_index rt.sal_index v = true) ∧
  (∀ v, rt.current_data = some v → same_index rt.sal_index v = true)

/-- No operation changes the index filter. -/
theorem applyReadOp_sal_index (rt : ReadTopicState) (op : ReadOp) :
    (applyReadOp rt op).1.sal_index = rt.sal_index := by
  cases op <;> simp [applyReadOp, ReadTopicState.pool_ingest] <;> split <;> rfl

/-- Ingestion preserves the index-filter invariant. -/
theorem pool_ingest_inv (rt : ReadTopicState) (m : Value) (h : RTInv rt) :
    RTInv (rt.pool_ingest m) := by
  unfold ReadTopicState.pool_ingest
  split
  · exact h
  · next hacc =>
    rw [Bool.not_eq_true', Bool.not_eq_false] at hacc
    constructor
    · intro v hv
      simp only [List.mem_append, List.mem_singleton] at hv
      rcases hv with hv | hv
      · exact h.1 v hv
      · subst hv; exact hacc
    · intro v hv
      have hmv : m = v := Option.some.inj hv
      exact hmv ▸ hacc

/-- Every operation preserves the index-filter invariant. -/
theorem applyReadOp_inv (rt : ReadTopicState) (op : ReadOp) (h : RTInv rt) :
    RTInv (applyReadOp rt op).1 := by
  cases op with
  | ingest m => exact pool_ingest_inv rt m h
  | flush => exact ⟨fun v hv => (List.not_mem_nil v hv).elim, h.2⟩
  | popFront => exact ⟨fun v hv => h.1 v (List.mem_of_mem_tail hv), h.2⟩
  | popBack => exact ⟨fun v hv => h.1 v (List.dropLast_subset _ hv), h.2⟩
  | get => exact h

/-- Every message surfaced by an operation passed the index filter. -/
theorem applyReadOp_out (rt : ReadTopicState) (op : ReadOp) (v : Value)
    (h : RTInv rt) (hv : (applyReadOp rt op).2 = some v) :
    same_index rt.sal_index v = true := by
  cases op with
  | ingest m => simp [applyReadOp] at hv
  | flush => simp [applyReadOp] at hv
  | popFront => exact h.1 v (List.mem_of_mem_head? hv)
  | popBack =>
    have hm : v ∈ rt.data_queue.getLast? := Option.mem_def.mpr hv
    obtain ⟨hne, heq⟩ := List.mem_getLast?_eq_getLast hm
    exact h.1 v (heq ▸ List.getLast_mem hne)
  | get => exact h.2 v hv

/-- Running operations from an invariant state keeps the invariant and
only ever surfaces messages that passed the index filter. -/
theorem runReadOps_inv (ops : List ReadOp) :
    ∀ rt : ReadTopicState, RTInv rt →
      RTInv (runReadOps rt ops).1 ∧
      ∀ v, some v ∈ (runReadOps rt ops).2 →
        same_index rt.sal_index v = true := by
  induction ops with
  | nil => exact fun rt h => ⟨h, by simp [runReadOps]⟩
  | cons op ops ih =>
    intro rt h
    have hstep := applyReadOp_inv rt op h
    obtain ⟨ih1, ih2⟩ := ih (applyReadOp rt op).1 hstep
    refine ⟨by simpa [runReadOps] using ih1, ?_⟩
    intro v hv
    simp only [runReadOps, List.mem_cons] at hv
    rcases hv with hv | hv
    · exact applyReadOp_out rt op v h hv.symm
    · have := ih2 v hv
      rwa [applyReadOp_sal_index] at this

/-- Running operations does not change the index filter. -/
theorem runReadOps_sal_index (ops : List ReadOp) :
    ∀ rt : ReadTopicState, (runReadOps rt ops).1.sal_index = rt.sal_index := by
  induction ops with
  | nil => intro rt; rfl
  | cons op ops ih =>
    intro rt
    simpa [runReadOps, applyReadOp_sal_index] using
      (ih (applyReadOp rt op).1).trans (applyReadOp_sal_index rt op)

/-- Messages used to probe the queue bound: 101 records all carrying
`salIndex = 1`. -/
def probe_messages : List Value :=
  (List.range 101).map (fun k =>
    Value.record (.cons "salIndex" (.int 1)
      (.cons "value" (.int (k : Int)) .nil)))

/-- C3: the claim says the data queue holds at most 100 messages
(`DEFAULT_QUEUE_LEN`) and that ingesting into a full queue drops the
oldest message.  The code passes `DEFAULT_QUEUE_LEN` only to
`VecDeque::with_capacity` — an allocation hint, not a bound — and `pool`
pushes with a plain `push_back`, so after ingesting 101 matching messages
the queue holds all 101 of them and nothing is dropped, contradicting the
claim and the `pool` doc comment (which says the dequeue has limited size
and old data may be dropped). -/
theorem c3_queue_unbounded :
    DEFAULT_QUEUE_LEN = 100
    ∧ probe_messages.length = 101
    ∧ (probe_messages.foldl ReadTopicState.pool_ingest
        (ReadTopicState.new (some 1))).data_queue = probe_messages
    ∧ (probe_messages.foldl ReadTopicState.pool_ingest
        (ReadTopicState.new (some 1))).data_queue.length > DEFAULT_QUEUE_LEN := by
  set_option maxRecDepth 4000 in decide

/-- C4: a `ReadTopic` built for an indexed component with concrete index
`i ≠ 0` never surfaces — via `get`, `pop_front` or `pop_back` — any
message that does not pass the `same_index` filter for `i` (that is, any
message whose decoded `salIndex` differs from `i`), and no such message
is ever in the queue or the most-recent-data slot. -/
theorem c4_index_filter_sound (i : Int) (hi : i ≠ 0) (ops : List ReadOp) :
    (∀ v, some v ∈ (runReadOps (ReadTopicState.new (some i)) ops).2 →
      same_index (some i) v = true)
    ∧ (∀ v ∈ (runReadOps (ReadTopicState.new (some i)) ops).1.data_queue,
      same_index (some i) v = true)
    ∧ (∀ v, (runReadOps (ReadTopicState.new (some i)) ops).1.current_data = some v →
      same_index (some i) v = true) := by
  have h0 : RTInv (ReadTopicState.new (some i)) := by
    constructor
    · intro v hv
      simp [ReadTopicState.new] at hv
    · intro v hv
      simp [ReadTopicState.new] at hv
  obtain ⟨hinv, hout⟩ := runReadOps_inv ops _ h0
  have hsi := runReadOps_sal_index ops (ReadTopicState.new (some i))
  refine ⟨hout, ?_, ?_⟩
  · intro v hv
    have := hinv.1 v hv
    rwa [hsi] at this
  · intro v hv
    have := hinv.2 v hv
    rwa [hsi] at this

/-- Witness for C4, at index 1 with one matching message, one message for
index 2 and a `pop_back`. -/
theorem c4_index_filter_sound_witness :
    (1 : Int) ≠ 0
    ∧ ((∀ v, some v ∈ (runReadOps (ReadTopicState.new (some 1))
          [ReadOp.ingest (Value.record (.cons "salIndex" (.int 1) .nil)),
           ReadOp.ingest (Value.record (.cons "salIndex" (.int 2) .nil)),
           ReadOp.popBack]).2 →
        same_index (some 1) v = true)
      ∧ (∀ v ∈ (runReadOps (ReadTopicState.new (some 1))
          [ReadOp.ingest (Value.record (.cons "salIndex" (.int 1) .nil)),
           ReadOp.ingest (Value.record (.cons "salIndex" (.int 2) .nil)),
           ReadOp.popBack]).1.data_queue,
        same_index (some 1) v = true)
      ∧ (∀ v, (runReadOps (ReadTopicState.new (some 1))
          [ReadOp.ingest (Value.record (.cons "salIndex" (.int 1) .nil)),
           ReadOp.ingest (Value.record (.cons "salIndex" (.int 2) .nil)),
           ReadOp.popBack]).1.current_data = some v →
        same_index (some 1) v = true)) :=
  ⟨by decide, c4_index_filter_sound 1 (by decide) _⟩

/-- Runs on a `ReadTopic` whose index filter is `None` never change the
state and never surface anything. -/
theorem runReadOps_none (ops : List ReadOp) :
    runReadOps (ReadTopicState.new none) ops =
      (ReadTopicState.new none, List.replicate ops.length none) := by
  induction ops with
  | nil => rfl
  | cons op ops ih =>
    have hstep : applyReadOp (ReadTopicState.new none) op =
        (ReadTopicState.new none, none) := by
      cases op <;>
        simp [applyReadOp, ReadTopicState.pool_ingest, ReadTopicState.new,
          same_index]
    simp [runReadOps, hstep, ih, List.replicate]

/-- C9: for a `ReadTopic` of a non-indexed component,
`SalInfo::get_optional_index` is `None`, the `same_index` filter rejects
every decoded record, so every received message is discarded during
ingestion: the state never changes and `get`, `pop_front` and `pop_back`
can never return any data. -/
theorem c9_non_indexed_never_surfaces (si : SalInfo)
    (h : si.component_info.indexed = false) :
    SalInfo.get_optional_index si = none
    ∧ (∀ v, same_index (SalInfo.get_optional_index si) v = false)
    ∧ ∀ ops : List ReadOp,
        runReadOps (ReadTopicState.new (SalInfo.get_optional_index si)) ops =
          (ReadTopicState.new (SalInfo.get_optional_index si),
            List.replicate ops.length none) := by
  have hnone : SalInfo.get_optional_index si = none := by
    simp [SalInfo.get_optional_index, SalInfo.is_indexed,
      ComponentInfo.is_indexed, h]
  rw [hnone]
  exact ⟨rfl, fun v => same_index_none v, fun ops => runReadOps_none ops⟩

/-! `src/topics/remote_command.rs` and `src/utils/command_ack.rs`:
the command acknowledgement wait loop of `RemoteCommand::run` /
`run_typed`. -/

/-- `HashMap` lookup on the collected fields of an ack record
(`remote_command.rs` builds `data_dict` by collecting the record fields
into a `HashMap`, so for a duplicated field name the last occurrence
wins). -/
def record_get (fields : ValueFields) (key : String) : Option Value :=
  (fields.toList.reverse.find? (fun p => p.1 == key)).map (fun p => p.2)

/-- `get_ackcmd_code` (`salobj/src/sal_enums.rs`): decode the `ack` field
of an ack record, defaulting to `CmdAck` for a missing field and for any
unrecognised or wrongly-typed value. -/
def get_ackcmd_code (ackcmd : Option Value) : SalRetCode :=
  match ackcmd with
  | some (.int i) =>
    if i = 300 then SalRetCode.CmdAck
    else if i = 301 then SalRetCode.CmdInprogress
    else if i = 302 then SalRetCode.CmdStalled
    else if i = 303 then SalRetCode.CmdComplete
    else if i = -300 then SalRetCode.CmdNoperm
    else if i = -301 then SalRetCode.CmdNoack
    else if i = -302 then SalRetCode.CmdFailed
    else if i = -303 then SalRetCode.CmdAborted
    else if i = -304 then SalRetCode.CmdTimeout
    else SalRetCode.CmdAck
  | _ => SalRetCode.CmdAck

/-- `CommandAck` (`utils/command_ack.rs`).  The Rust `Duration` timeout is
carried as an opaque number. -/
structure CommandAck where
  ack : SalRetCode
  error : Int
  result : String
  identity : String
  origin : Int
  cmdtype : Int
  timeout : Nat
  seq_num : Int
deriving DecidableEq, Repr

/-- `CommandAck::default` (`utils/command_ack.rs`). -/
def CommandAck.defaultAck : CommandAck :=
  { ack := SalRetCode.CmdAck, error := 0, result := "", identity := "",
    origin := 0, cmdtype := 0, timeout := 0, seq_num := 0 }

/-- `CommandAck::new` (`utils/command_ack.rs`): all fields explicit except
`cmdtype`, which keeps its default. -/
def CommandAck.new (ack : SalRetCode) (error : Int) (result identity : String)
    (origin : Int) (timeout : Nat) (seq_num : Int) : CommandAck :=
  { CommandAck.defaultAck with
    ack := ack, error := error, result := result, identity := identity,
    origin := origin, timeout := timeout, seq_num := seq_num }

/-- `CommandAck::invalid_command` (`utils/command_ack.rs`). -/
def CommandAck.invalid_command (result : String) : CommandAck :=
  { CommandAck.defaultAck with result := result }

/-- `CommandAck::is_final` (`utils/command_ack.rs`). -/
def CommandAck.is_final (self : CommandAck) : Bool :=
  is_ack_final self.ack

/-- `CommandAck::is_good` (`utils/command_ack.rs`). -/
def CommandAck.is_good (self : CommandAck) : Bool :=
  is_ack_good self.ack

/-- `AckCmdResult` (`remote_command.rs`):
`Result<CommandAck, CommandAck>`. -/
def AckCmdResult := Except CommandAck CommandAck

/-- The triple filter of the ack wait loop (`remote_command.rs`, both
`run` and `run_typed`): the `origin`, `identity` and `private_seqNum`
fields of the ack record — with `unwrap_or` defaults `Int(0)`, empty
string and `Int(0)` for missing fields — must equal the values of the
command just written. -/
def ack_matches (origin : Int) (identity : String) (seq_num : Int)
    (ack_cmd : ValueFields) : Bool :=
  ((record_get ack_cmd "origin").getD (Value.int 0) == Value.int origin)
  && ((record_get ack_cmd "identity").getD (Value.string "") ==
      Value.string identity)
  && ((record_get ack_cmd "private_seqNum").getD (Value.int 0) ==
      Value.int seq_num)

/-- Error-field extraction of `RemoteCommand::run` (`remote_command.rs`):
`Some(Value::Long(e))`, default 0. -/
def ack_error_long (ack_cmd : ValueFields) : Int :=
  match record_get ack_cmd "error" with
  | some (.long e) => e
  | _ => 0

/-- Error-field extraction of `RemoteCommand::run_typed`
(`remote_command.rs`): `Some(Value::Int(e))`, default 0. -/
def ack_error_int (ack_cmd : ValueFields) : Int :=
  match record_get ack_cmd "error" with
  | some (.int e) => e
  | _ => 0

/-- Result-field extraction of the wait loop (`remote_command.rs`):
`Some(Value::String(r))`, default empty. -/
def ack_result (ack_cmd : ValueFields) : String :=
  match record_get ack_cmd "result" with
  | some (.string r) => r
  | _ => ""

/-- The `CommandAck` the wait loop builds from a matching ack record
(`remote_command.rs`); `errorF` is the error-field extraction, which is
the only point where `run` and `run_typed` differ. -/
def command_ack_of_record (errorF : ValueFields → Int) (identity : String)
    (origin : Int) (timeout : Nat) (seq_num : Int) (ack_cmd : ValueFields) :
    CommandAck :=
  CommandAck.new (get_ackcmd_code (record_get ack_cmd "ack"))
    (errorF ack_cmd) (ack_result ack_cmd) identity origin timeout seq_num

/-- The ack wait loop of `RemoteCommand::run` / `run_typed`
(`remote_command.rs`), over the successive results of
`ack_reader.pop_back`: `none` means `pop_back` timed out.  Returns `none`
when the list is exhausted with the loop still waiting. -/
def ack_loop (errorF : ValueFields → Int) (origin : Int) (identity : String)
    (seq_num : Int) (timeout : Nat) (wait_done : Bool) :
    List (Option Value) → Option (Except CommandAck CommandAck)
  | [] => none
  | ack :: acks =>
    match ack with
    | some (.record ack_cmd) =>
      if ack_matches origin identity seq_num ack_cmd then
        let command_ack :=
          command_ack_of_record errorF identity origin timeout seq_num ack_cmd
        if !wait_done then
          some (.ok command_ack)
        else if command_ack.is_final then
          if command_ack.is_good then some (.ok command_ack)
          else some (.error command_ack)
        else
          ack_loop errorF origin identity seq_num timeout wait_done acks
      else
        ack_loop errorF origin identity seq_num timeout wait_done acks
    | _ =>
      some (.error (CommandAck.new SalRetCode.CmdNoack (-1)
        "No acknowledgment seen." identity origin timeout seq_num))

/-- `RemoteCommand::run` (`remote_command.rs`): flushes the ack reader,
writes the command (`write_result` is the outcome of
`command_writer.write`, carrying the sequence number) and enters the ack
wait loop; a failed write resolves immediately with `invalid_command`. -/
def RemoteCommand.run (origin : Int) (identity : String) (timeout : Nat)
    (wait_done : Bool) (write_result : Except String Int)
    (acks : List (Option Value)) : Option (Except CommandAck CommandAck) :=
  match write_result with
  | .ok seq_num =>
    ack_loop ack_error_long origin identity seq_num timeout wait_done acks
  | .error error => some (.error (CommandAck.invalid_command error))

/-- `RemoteCommand::run_typed` (`remote_command.rs`): as
`RemoteCommand.run` but reading the `error` field as `Value::Int`. -/
def RemoteCommand.run_typed (origin : Int) (identity : String) (timeout : Nat)
    (wait_done : Bool) (write_result : Except String Int)
    (acks : List (Option Value)) : Option (Except CommandAck CommandAck) :=
  match write_result with
  | .ok seq_num =>
    ack_loop ack_error_int origin identity seq_num timeout wait_done acks
  | .error error => some (.error (CommandAck.invalid_command error))

/-- C5 counterexample: the claim says `run` resolves only against an ack
record whose `origin`, `identity` and `private_seqNum` fields equal those
of the written command.  Because missing fields are `unwrap_or`-defaulted
to `Int(0)`, the empty string and `Int(0)`, a run whose command has
origin 0, empty identity and sequence number 0 resolves against an ack
record that has none of these fields at all. -/
theorem c5_default_match_counterexample :
    RemoteCommand.run 0 "" 5 false (.ok 0) [some (Value.record .nil)] =
      some (.ok (CommandAck.new SalRetCode.CmdAck 0 "" "" 0 5 0))
    ∧ record_get ValueFields.nil "origin" = none
    ∧ record_get ValueFields.nil "identity" = none
    ∧ record_get ValueFields.nil "private_seqNum" = none := by
  decide

/-- C5 (amended): every result the ack wait loop of
`RemoteCommand::run` / `run_typed` resolves with is either the
synthesized no-ack error or is built from an ack record of the stream
that passed the triple filter `ack_matches` — `origin`, `identity` and
`private_seqNum` equal to those of the written command, with missing
fields read as 0, the empty string and 0 respectively — and every record
failing that filter is discarded, the loop continuing unchanged. -/
theorem c5_ack_provenance (errorF : ValueFields → Int) (origin : Int)
    (identity : String) (seq_num : Int) (timeout : Nat) (wait_done : Bool) :
    (∀ acks r,
      ack_loop errorF origin identity seq_num timeout wait_done acks = some r →
        r = .error (CommandAck.new SalRetCode.CmdNoack (-1)
          "No acknowledgment seen." identity origin timeout seq_num)
        ∨ ∃ ack_cmd, some (Value.record ack_cmd) ∈ acks
            ∧ ack_matches origin identity seq_num ack_cmd = true
            ∧ (r = .ok (command_ack_of_record errorF identity origin timeout
                  seq_num ack_cmd)
              ∨ r = .error (command_ack_of_record errorF identity origin timeout
                  seq_num ack_cmd)))
    ∧ (∀ ack_cmd acks, ack_matches origin identity seq_num ack_cmd = false →
        ack_loop errorF origin identity seq_num timeout wait_done
            (some (Value.record ack_cmd) :: acks) =
          ack_loop errorF origin identity seq_num timeout wait_done acks) := by
  constructor
  · intro acks
    induction acks with
    | nil => intro r h; simp [ack_loop] at h
    | cons a as ih =>
      intro r h
      cases a with
      | none =>
        simp only [ack_loop] at h
        exact Or.inl (Option.some.inj h).symm
      | some val =>
        cases val with
        | record ack_cmd =>
          simp only [ack_loop] at h
          cases hm : ack_matches origin identity seq_num ack_cmd with
          | false =>
            rw [hm] at h
            simp only [Bool.false_eq_true, if_false] at h
            rcases ih r h with hl | ⟨ac, hmem, hmat, hr⟩
            · exact Or.inl hl
            · exact Or.inr ⟨ac, List.mem_cons_of_mem _ hmem, hmat, hr⟩
          | true =>
            rw [hm] at h
            simp only [if_true] at h
            split at h
            · exact Or.inr ⟨ack_cmd, List.mem_cons_self _ _, hm,
                Or.inl (Option.some.inj h).symm⟩
            · split at h
              · split at h
                · exact Or.inr ⟨ack_cmd, List.mem_cons_self _ _, hm,
                    Or.inl (Option.some.inj h).symm⟩
                · exact Or.inr ⟨ack_cmd, List.mem_cons_self _ _, hm,
                    Or.inr (Option.some.inj h).symm⟩
              · rcases ih r h with hl | ⟨ac, hmem, hmat, hr⟩
                · exact Or.inl hl
                · exact Or.inr ⟨ac, List.mem_cons_of_mem _ hmem, hmat, hr⟩
        | null => exact Or.inl (Option.some.inj h).symm
        | boolean b => exact Or.inl (Option.some.inj h).symm
        | int i => exact Or.inl (Option.some.inj h).symm
        | long i => exact Or.inl (Option.some.inj h).symm
        | string s => exact Or.inl (Option.some.inj h).symm
  · intro ack_cmd acks hm
    simp [ack_loop, hm]

/-- An ack record with the full matching triple and a `CmdComplete` ack
code, used by the C5 witness. -/
def sample_ack_record : ValueFields :=
  .cons "origin" (.int 7)
    (.cons "identity" (.string "me")
      (.cons "private_seqNum" (.int 3)
        (.cons "ack" (.int 303) .nil)))

/-- Witness for C5: a concrete loop run resolving against a fully
matching `CmdComplete` ack record. -/
theorem c5_ack_provenance_witness :
    ack_loop ack_error_long 7 "me" 3 5 true [some (Value.record sample_ack_record)] =
      some (.ok (command_ack_of_record ack_error_long "me" 7 5 3 sample_ack_record))
    ∧ ((.ok (command_ack_of_record ack_error_long "me" 7 5 3 sample_ack_record) :
          Except CommandAck CommandAck) =
        .error (CommandAck.new SalRetCode.CmdNoack (-1)
          "No acknowledgment seen." "me" 7 5 3)
      ∨ ∃ ack_cmd,
          some (Value.record ack_cmd) ∈ [some (Value.record sample_ack_record)]
          ∧ ack_matches 7 "me" 3 ack_cmd = true
          ∧ ((.ok (command_ack_of_record ack_error_long "me" 7 5 3
                sample_ack_record) : Except CommandAck CommandAck) =
              .ok (command_ack_of_record ack_error_long "me" 7 5 3 ack_cmd)
            ∨ (.ok (command_ack_of_record ack_error_long "me" 7 5 3
                sample_ack_record) : Except CommandAck CommandAck) =
              .error (command_ack_of_record ack_error_long "me" 7 5 3 ack_cmd))) :=
  ⟨by decide,
    (c5_ack_provenance ack_error_long 7 "me" 3 5 true).1
      [some (Value.record sample_ack_record)] _ (by decide)⟩

/-- C6: whenever the wait on the ack reader (`pop_back` with the caller
timeout) yields nothing, `RemoteCommand::run` returns an `Err` carrying a
synthesized `CommandAck` whose code is `CmdNoack` (with error -1 and the
result string "No acknowledgment seen."), not a transport error. -/
theorem c6_no_ack_returns_cmd_noack (origin : Int) (identity : String)
    (seq_num : Int) (timeout : Nat) (wait_done : Bool)
    (rest : List (Option Value)) :
    RemoteCommand.run origin identity timeout wait_done (.ok seq_num)
        (none :: rest) =
      some (.error (CommandAck.new SalRetCode.CmdNoack (-1)
        "No acknowledgment seen." identity origin timeout seq_num))
    ∧ (CommandAck.new SalRetCode.CmdNoack (-1) "No acknowledgment seen."
        identity origin timeout seq_num).ack = SalRetCode.CmdNoack :=
  ⟨rfl, rfl⟩

/-- C10: `get_ackcmd_code` maps every input other than a recognised
`Some(Value::Int(k))` with `k` in {300, 301, 302, 303, -300, -301, -302,
-303, -304} — including a missing field (`None`) and wrongly-typed
values — to `CmdAck`, which `is_ack_good` accepts and `is_ack_final`
rejects; consequently a matching ack record with such a malformed `ack`
field never terminates a wait loop started with `wait_done = true`. -/
theorem c10_malformed_ack_is_benign (v : Option Value)
    (h : ∀ k : Int,
      k ∈ ([300, 301, 302, 303, -300, -301, -302, -303, -304] : List Int) →
      v ≠ some (Value.int k)) :
    get_ackcmd_code v = SalRetCode.CmdAck
    ∧ is_ack_good SalRetCode.CmdAck = true
    ∧ is_ack_final SalRetCode.CmdAck = false
    ∧ ∀ (errorF : ValueFields → Int) (origin : Int) (identity : String)
        (seq_num : Int) (timeout : Nat) (acks : List (Option Value))
        (ack_cmd : ValueFields),
        ack_matches origin identity seq_num ack_cmd = true →
        record_get ack_cmd "ack" = v →
        ack_loop errorF origin identity seq_num timeout true
            (some (Value.record ack_cmd) :: acks) =
          ack_loop errorF origin identity seq_num timeout true acks := by
  have hget : get_ackcmd_code v = SalRetCode.CmdAck := by
    cases v with
    | none => rfl
    | some val =>
      cases val with
      | int i =>
        have ne : ∀ k : Int,
            k ∈ ([300, 301, 302, 303, -300, -301, -302, -303, -304] : List Int) →
            i ≠ k :=
          fun k hk heq => h k hk (by rw [heq])
        simp only [get_ackcmd_code]
        rw [if_neg (ne 300 (by decide)), if_neg (ne 301 (by decide)),
          if_neg (ne 302 (by decide)), if_neg (ne 303 (by decide)),
          if_neg (ne (-300) (by decide)), if_neg (ne (-301) (by decide)),
          if_neg (ne (-302) (by decide)), if_neg (ne (-303) (by decide)),
          if_neg (ne (-304) (by decide))]
      | null => rfl
      | boolean b => rfl
      | long i => rfl
      | string s => rfl
      | record fs => rfl
  refine ⟨hget, rfl, rfl, ?_⟩
  intro errorF origin identity seq_num timeout acks ack_cmd hmatch hv
  have hfin :
      (command_ack_of_record errorF identity origin timeout seq_num
        ack_cmd).is_final = false := by
    show is_ack_final (get_ackcmd_code (record_get ack_cmd "ack")) = false
    rw [hv, hget]
    rfl
  simp [ack_loop, hmatch, hfin]

/-- Witness for C10, for a wrongly-typed (string-valued) `ack` field. -/
theorem c10_malformed_ack_is_benign_witness :
    (∀ k : Int,
      k ∈ ([300, 301, 302, 303, -300, -301, -302, -303, -304] : List Int) →
      (some (Value.string "nonsense") : Option Value) ≠ some (Value.int k))
    ∧ (get_ackcmd_code (some (Value.string "nonsense")) = SalRetCode.CmdAck
      ∧ is_ack_good SalRetCode.CmdAck = true
      ∧ is_ack_final SalRetCode.CmdAck = false
      ∧ ∀ (errorF : ValueFields → Int) (origin : Int) (identity : String)
          (seq_num : Int) (timeout : Nat) (acks : List (Option Value))
          (ack_cmd : ValueFields),
          ack_matches origin identity seq_num ack_cmd = true →
          record_get ack_cmd "ack" = some (Value.string "nonsense") →
          ack_loop errorF origin identity seq_num timeout true
              (some (Value.record ack_cmd) :: acks) =
            ack_loop errorF origin identity seq_num timeout true acks) :=
  ⟨by decide, c10_malformed_ack_is_benign (some (Value.string "nonsense"))
    (by decide)⟩

/-! C7: command indexing (`SalInfo::get_command_type`,
`ComponentInfo::get_topic_name_commands`). -/

/-- Lexicographic (code-point) comparison of two character lists. -/
def lex_le_chars : List Char → List Char → Bool
  | [], _ => true
  | _ :: _, [] => false
  | c :: cs, d :: ds =>
    if c.val < d.val then true
    else if d.val < c.val then false
    else lex_le_chars cs ds

/-- Lexicographic order on strings. -/
def lex_le (a b : String) : Bool :=
  lex_le_chars a.data b.data

/-- Spec-side counterpart of `SalInfo::get_command_type`, following the
spec sentence verbatim: the position of the command in the
LEXICOGRAPHICALLY SORTED list of the component command names.  Compared
against the code-side `SalInfo.get_command_type`, which searches the
command-name list in the `HashMap` iteration order. -/
def get_command_type_lex (self : SalInfo) (command_name : String) :
    Option Nat :=
  (List.insertionSort (fun a b => lex_le a b = true)
      self.component_info.get_topic_name_commands).findIdx?
    (fun name => name == command_name)

/-- A catalog whose `HashMap` iteration order is not lexicographic (the
Rust `HashMap` gives no ordering guarantee, so any key order can occur). -/
def sample_unsorted_catalog : SalInfo :=
  { index := 1,
    component_info :=
      { name := "Test", topic_subname := "sal", indexed := true,
        commands := ["command_start", "command_disable"] } }

/-- C7 counterexample: the claim says `get_command_type` returns the
position of the command in the lexicographically sorted command list.
On a catalog whose `HashMap` iteration order is
`[command_start, command_disable]` — a possible iteration order, since
Rust `HashMap` iteration is hash-order, not sorted — the code returns
position 0 for `command_start`, whereas its lexicographic position
is 1. -/
theorem c7_hash_order_counterexample :
    SalInfo.get_command_type sample_unsorted_catalog "command_start" = some 0
    ∧ get_command_type_lex sample_unsorted_catalog "command_start" = some 1
    ∧ (some 0 : Option Nat) ≠ some 1 := by
  decide

/-- C7 (amended): `get_command_type` is deterministic — it is a pure
function of the catalog, so any two invocations on the same catalog
return the same value, namely the position of the command in the
component command-name list in the catalog's fixed iteration order — and
that value equals the position in the lexicographically sorted command
list exactly when the iteration order is itself sorted. -/
theorem c7_command_type_lex_when_sorted (si : SalInfo) (c : String)
    (h : List.Sorted (fun a b => lex_le a b = true)
      si.component_info.get_topic_name_commands) :
    SalInfo.get_command_type si c = get_command_type_lex si c := by
  unfold SalInfo.get_command_type get_command_type_lex
  rw [List.Sorted.insertionSort_eq h]

/-- A catalog whose iteration order happens to be sorted, for the C7
witness. -/
def sample_sorted_catalog : SalInfo :=
  { index := 1,
    component_info :=
      { name := "Test", topic_subname := "sal", indexed := true,
        commands := ["command_disable", "command_start"] } }

/-- Witness for C7 on a sorted catalog. -/
theorem c7_command_type_lex_when_sorted_witness :
    List.Sorted (fun a b => lex_le a b = true)
        sample_sorted_catalog.component_info.get_topic_name_commands
    ∧ SalInfo.get_command_type sample_sorted_catalog "command_start" =
        get_command_type_lex sample_sorted_catalog "command_start" :=
  ⟨by decide, c7_command_type_lex_when_sorted sample_sorted_catalog
    "command_start" (by decide)⟩

/-! C8: broker address configuration (`src/domain.rs` and
`salobj/src/domain.rs`).  The process environment is embedded as a
function from variable names to optional values. -/

/-- `DEFAULT_LSST_KAFKA_CLIENT_ADDR` (`domain.rs`). -/
def DEFAULT_LSST_KAFKA_CLIENT_ADDR : String := "localhost:9092"

/-- The Rust `str::split(',')` over the characters of a string: split at
every comma, keeping empty segments. -/
def split_comma_chars : List Char → List (List Char)
  | [] => [[]]
  | c :: cs =>
    let rest := split_comma_chars cs
    if c = ',' then
      [] :: rest
    else
      match rest with
      | r :: rs => (c :: r) :: rs
      | [] => [[c]]

/-- The Rust `str::split(',')` collected into a list of strings
(`domain.rs` maps each piece with `to_owned`). -/
def split_comma (s : String) : List String :=
  (split_comma_chars s.data).map (fun cs => String.mk cs)

/-- `Domain::get_client_hosts` (`src/src/domain.rs`): reads
`LSST_KAFKA_CLIENT_ADDR`, splits on commas, defaults to
`localhost:9092`. -/
def get_client_hosts (env : String → Option String) : List String :=
  match env "LSST_KAFKA_CLIENT_ADDR" with
  | some kafka_client_addr => split_comma kafka_client_addr
  | none => [DEFAULT_LSST_KAFKA_CLIENT_ADDR]

/-- `Domain::get_client_hosts` in the `salobj/` copy
(`salobj/src/domain.rs`): identical except that it reads
`LSST_KAFKA_BROKER_ADDR`. -/
def salobj_get_client_hosts (env : String → Option String) : List String :=
  match env "LSST_KAFKA_BROKER_ADDR" with
  | some kafka_client_addr => split_comma kafka_client_addr
  | none => [DEFAULT_LSST_KAFKA_CLIENT_ADDR]

/-- Set one variable in an environment. -/
def env_update (env : String → Option String) (key value : String) :
    String → Option String :=
  fun name => if name = key then some value else env name

/-- C8 counterexample: in an environment where only
`LSST_KAFKA_BROKER_ADDR` is set (to `a:1,b:2`), the claim predicts the
host list `[a:1, b:2]`, but the cited `src/src/domain.rs` function
ignores that variable (it reads `LSST_KAFKA_CLIENT_ADDR`) and returns
the default; the `salobj/` copy is the one that honours
`LSST_KAFKA_BROKER_ADDR`. -/
theorem c8_broker_addr_counterexample :
    get_client_hosts
        (fun name => if name = "LSST_KAFKA_BROKER_ADDR"
          then some "a:1,b:2" else none) = ["localhost:9092"]
    ∧ split_comma "a:1,b:2" = ["a:1", "b:2"]
    ∧ (["localhost:9092"] : List String) ≠ ["a:1", "b:2"]
    ∧ salobj_get_client_hosts
        (fun name => if name = "LSST_KAFKA_BROKER_ADDR"
          then some "a:1,b:2" else none) = ["a:1", "b:2"] := by
  decide

/-- C8 (amended): `Domain::get_client_hosts` in the cited
`src/src/domain.rs` obtains the broker list from
`LSST_KAFKA_CLIENT_ADDR`, splitting its value on commas, and defaults to
the single entry `localhost:9092` when that variable is unset;
`LSST_KAFKA_BROKER_ADDR` has no effect on it (it is the `salobj/` copy
that reads `LSST_KAFKA_BROKER_ADDR`). -/
theorem c8_client_addr_env (env : String → Option String) :
    (env "LSST_KAFKA_CLIENT_ADDR" = none →
      get_client_hosts env = ["localhost:9092"])
    ∧ (∀ a, env "LSST_KAFKA_CLIENT_ADDR" = some a →
      get_client_hosts env = split_comma a)
    ∧ (∀ v, get_client_hosts (env_update env "LSST_KAFKA_BROKER_ADDR" v) =
      get_client_hosts env)
    ∧ (∀ v, salobj_get_client_hosts (env_update env "LSST_KAFKA_BROKER_ADDR" v) =
      split_comma v) := by
  refine ⟨?_, ?_, ?_, ?_⟩
  · intro h
    unfold get_client_hosts
    rw [h]
    rfl
  · intro a h
    unfold get_client_hosts
    rw [h]
  · intro v
    have hne : env_update env "LSST_KAFKA_BROKER_ADDR" v
        "LSST_KAFKA_CLIENT_ADDR" = env "LSST_KAFKA_CLIENT_ADDR" := by
      unfold env_update
      rw [if_neg (by decide)]
    unfold get_client_hosts
    rw [hne]
  · intro v
    unfold salobj_get_client_hosts env_update
    rw [if_pos rfl]

/-- Witness for C8 in the empty environment. -/
theorem c8_client_addr_env_witness :
    get_client_hosts (fun _ => none) = ["localhost:9092"]
    ∧ (((fun _ => none : String → Option String) "LSST_KAFKA_CLIENT_ADDR" = none →
        get_client_hosts (fun _ => none) = ["localhost:9092"])
      ∧ (∀ a, (fun _ => none : String → Option String) "LSST_KAFKA_CLIENT_ADDR" =
            some a →
          get_client_hosts (fun _ => none) = split_comma a)
      ∧ (∀ v, get_client_hosts
            (env_update (fun _ => none) "LSST_KAFKA_BROKER_ADDR" v) =
          get_client_hosts (fun _ => none))
      ∧ (∀ v, salobj_get_client_hosts
            (env_update (fun _ => none) "LSST_KAFKA_BROKER_ADDR" v) =
          split_comma v)) :=
  ⟨by decide, c8_client_addr_env (fun _ => none)⟩

/-- A concrete non-indexed component catalog, used by the C9 witness. -/
def sample_non_indexed : SalInfo :=
  { index := 0,
    component_info :=
      { name := "MTMount", topic_subname := "sal", indexed := false,
        commands := ["command_start"] } }

/-- Witness for C9, for a concrete non-indexed component. -/
theorem c9_non_indexed_never_surfaces_witness :
    sample_non_indexed.component_info.indexed = false
    ∧ (SalInfo.get_optional_index sample_non_indexed = none
      ∧ (∀ v, same_index (SalInfo.get_optional_index sample_non_indexed) v = false)
      ∧ ∀ ops : List ReadOp,
          runReadOps
            (ReadTopicState.new (SalInfo.get_optional_index sample_non_indexed))
            ops =
          (ReadTopicState.new (SalInfo.get_optional_index sample_non_indexed),
            List.replicate ops.length none)) :=
  ⟨rfl, c9_non_indexed_never_surfaces sample_non_indexed rfl⟩

end RsSalobj
